import Mathlib

/-!
Shallow embedding of the moderated-suggestion workflow engine of
`cogs/suggestions.py` (oxide-bot).  The three SQLite tables (`config`,
`blacklist`, `store`) are modelled as lists of rows; SQL statements become
the corresponding list operations (`find?` for `fetch_one`, `filter`/`map`
for `WHERE`-scoped reads and updates, `++ [row]` for `INSERT`).  External
chat-platform effects (message send, message fetch, channel reachability,
role resolution) are passed in as explicit parameters.
-/

namespace Oxide

/- `SuggestionStatusType` constants from the source (status stored as int). -/
namespace SuggestionStatusType

def PENDING : Nat := 0

def ACCEPTED : Nat := 1

def DECLINED : Nat := 2

def CONSIDERED : Nat := 3

end SuggestionStatusType

/-- A row of the `config` table (`setup_databases.py` schema). -/
structure ConfigRow where
  channel_id : Nat
  guild_id : Nat
  role_id : Option Nat
  allow_anonymous : Nat
  action_notification_enabled : Nat
  allow_attachments : Nat
  allow_edits : Nat
  enabled : Nat
deriving DecidableEq, Repr

/-- Row inserted by `INSERT INTO config (guild_id, channel_id) VALUES (?, ?)`:
all other columns take their schema defaults (`role_id NULL`, flags `0`,
`enabled 1`). -/
def defaultConfigRow (guildId channelId : Nat) : ConfigRow :=
  { channel_id := channelId
    guild_id := guildId
    role_id := none
    allow_anonymous := 0
    action_notification_enabled := 0
    allow_attachments := 0
    allow_edits := 0
    enabled := 1 }

/-- A row of the `blacklist` table. -/
structure BlacklistRow where
  guild_id : Nat
  channel_id : Nat
  user_id : Nat
  reason : Option String
deriving DecidableEq, Repr

/-- A row of the `store` table (suggestion records). -/
structure SuggestionRow where
  id : Nat
  guild_id : Nat
  channel_id : Nat
  author_id : Nat
  message_id : Nat
  content : String
  attachment_url : Option String
  anonymous : Nat
  status : Nat
  edited_at : Option String
  action_updated_at : Option String
  action_note : Option String
deriving DecidableEq, Repr

/-- The whole `suggestions.db` database. -/
structure DB where
  config : List ConfigRow
  blacklist : List BlacklistRow
  store : List SuggestionRow
deriving DecidableEq, Repr

/-- A file attachment as used by the suggestion modal. -/
structure Attachment where
  url : String
  filename : String
  content_type : Option String
deriving DecidableEq, Repr

/-- The slice of a rendered embed that the suggestion flow fills in. -/
structure Embed where
  title : String
  description : Option String := none
  image_url : Option String := none
  field_values : List (String × String) := []
  author_name : Option String := none
  footer : Option String := none
deriving DecidableEq, Repr

/-- `/suggestions setup`: fails when a config row for the channel exists,
otherwise inserts a row with schema defaults. -/
inductive SetupResult where
  | alreadyConfigured
  | ok
deriving DecidableEq, Repr

/-- `Suggestions.setup` — the `/suggestions setup` command body. -/
def setupCommand (config : List ConfigRow) (guildId channelId : Nat) :
    SetupResult × List ConfigRow :=
  match config.find? (fun r => r.channel_id == channelId && r.guild_id == guildId) with
  | some _ => (.alreadyConfigured, config)
  | none => (.ok, config ++ [defaultConfigRow guildId channelId])

/-- Errors surfaced by the admission checks of `Suggestions.suggest`. -/
inductive SuggestError where
  | blacklisted (reason : Option String)
  | notConfigured
  | channelDisabled
  | roleRequired (roleId : Nat)
  | attachmentsDisallowed
deriving DecidableEq, Repr

/-- The admission-check sequence of `Suggestions.suggest`, in source order:
blacklist row lookup, config row lookup, `enabled` flag, role restriction
(`guild.get_role` modelled by `roleExists`), attachment permission.  On
success it returns the config row (`data`) used further down the flow. -/
def suggestChecks (config : List ConfigRow) (blacklist : List BlacklistRow)
    (guildId channelId userId : Nat) (userRoles : List Nat)
    (roleExists : Nat → Bool) (hasAttachment : Bool) :
    Except SuggestError ConfigRow :=
  match blacklist.find? (fun r =>
      r.guild_id == guildId && r.user_id == userId && r.channel_id == channelId) with
  | some b => .error (.blacklisted b.reason)
  | none =>
    match config.find? (fun r => r.channel_id == channelId && r.guild_id == guildId) with
    | none => .error .notConfigured
    | some data =>
      if data.enabled = 0 then .error .channelDisabled
      else
        match data.role_id with
        | some rid =>
          if roleExists rid ∧ ¬ userRoles.contains rid then .error (.roleRequired rid)
          else if hasAttachment ∧ data.allow_attachments = 0 then
            .error .attachmentsDisallowed
          else .ok data
        | none =>
          if hasAttachment ∧ data.allow_attachments = 0 then
            .error .attachmentsDisallowed
          else .ok data

/-- How the success acknowledgement of a post is delivered. -/
inductive Delivery where
  | dmToAuthor
  | editInteraction
deriving DecidableEq, Repr

/-- Outcome of `SuggestionEntryModal.on_submit`. -/
inductive SubmitOutcome where
  | anonymousNotAllowed
  | renderFailed
  | posted (suggestionId : Nat) (delivery : Delivery)
deriving DecidableEq, Repr

/-- Result record for `SuggestionEntryModal.on_submit`: the user-facing
outcome, the `store` table afterwards, and the suggestion embed that was
built (when the flow got that far). -/
structure SubmitResult where
  outcome : SubmitOutcome
  store : List SuggestionRow
  embed : Option Embed
deriving DecidableEq, Repr

/-- `attachment.content_type and attachment.content_type.startswith("image/")`. -/
def contentTypeIsImage : Option String → Bool
  | some ct => ct.startsWith "image/"
  | none => false

/-- `SuggestionEntryModal.on_submit`.  `sendOk` models whether
`channel.send`/`add_reaction` raise `discord.Forbidden`; `messageId` is the
id of the rendered message when the send succeeds. -/
def onSubmit (store : List SuggestionRow) (data : ConfigRow) (channelId : Nat)
    (guildId userId : Nat) (userName : String) (isAnonymous : Nat)
    (content : String) (attachment : Option Attachment)
    (sendOk : Bool) (messageId : Nat) : SubmitResult :=
  if isAnonymous ≠ 0 ∧ data.allow_anonymous = 0 then
    { outcome := .anonymousNotAllowed, store := store, embed := none }
  else
    let suggestionId := (store.filter (fun r => r.guild_id == guildId)).length + 1
    let embed0 : Embed :=
      { title := "Suggestion #" ++ toString suggestionId, footer := some "Status: Pending" }
    let embed1 := if content ≠ "" then { embed0 with description := some content } else embed0
    let embed2 :=
      match attachment with
      | some a =>
        if contentTypeIsImage a.content_type then { embed1 with image_url := some a.url }
        else
          { embed1 with field_values :=
              embed1.field_values ++ [("Attachment", "[" ++ a.filename ++ "](" ++ a.url ++ ")")] }
      | none => embed1
    let embed3 :=
      if isAnonymous ≠ 0 then { embed2 with author_name := some "Anonymous Suggestion" }
      else { embed2 with author_name := some userName }
    if sendOk then
      let row : SuggestionRow :=
        { id := suggestionId
          guild_id := guildId
          channel_id := channelId
          author_id := userId
          message_id := messageId
          content := content
          attachment_url := attachment.map (fun a => a.url)
          anonymous := isAnonymous
          status := SuggestionStatusType.PENDING
          edited_at := none
          action_updated_at := none
          action_note := none }
      { outcome := .posted suggestionId (if isAnonymous ≠ 0 then .dmToAuthor else .editInteraction)
        store := store ++ [row]
        embed := some embed3 }
    else
      { outcome := .renderFailed, store := store, embed := some embed3 }

/-- Result of the whole `/suggest` flow. -/
inductive PostResult where
  | rejected (e : SuggestError)
  | abandoned
  | submitted (o : SubmitOutcome)
deriving DecidableEq, Repr

/-- The `/suggest` flow: admission checks, then the explicit confirmation
step (`SuggestionConfirmation`; `confirmed = false` means the author never
pressed Post), then `SuggestionEntryModal.on_submit`. -/
def postFlow (db : DB) (guildId channelId userId : Nat) (userRoles : List Nat)
    (roleExists : Nat → Bool) (userName : String) (confirmed : Bool)
    (isAnonymous : Nat) (content : String) (attachment : Option Attachment)
    (sendOk : Bool) (messageId : Nat) : PostResult × DB :=
  match suggestChecks db.config db.blacklist guildId channelId userId userRoles
      roleExists attachment.isSome with
  | .error e => (.rejected e, db)
  | .ok data =>
    if confirmed then
      let res := onSubmit db.store data channelId guildId userId userName isAnonymous
        content attachment sendOk messageId
      (.submitted res.outcome, { db with store := res.store })
    else (.abandoned, db)

/-- Outcome of `Suggestions.update_suggestion_status`. -/
inductive ModerateResult where
  | invalidSuggestionId
  | alreadyActedUpon
  | messageNotFound
  | channelNotFound
  | updated
deriving DecidableEq, Repr

/-- `Suggestions.update_suggestion_status`.  `fetchOk c m` models whether
`channel.fetch_message(m)` succeeds (raises `discord.NotFound` otherwise);
`now` is `discord.utils.utcnow().isoformat()`.  Note that, as in the source,
the `UPDATE` runs before the config lookup, so a missing config row yields
`channelNotFound` with the store already updated. -/
def updateSuggestionStatus (store : List SuggestionRow) (config : List ConfigRow)
    (guildId suggestionId status : Nat) (note : Option String)
    (fetchOk : Nat → Nat → Bool) (now : String) : ModerateResult × List SuggestionRow :=
  match store.find? (fun r => r.guild_id == guildId && r.id == suggestionId) with
  | none => (.invalidSuggestionId, store)
  | some s =>
    if s.status ≠ SuggestionStatusType.PENDING then (.alreadyActedUpon, store)
    else if fetchOk s.channel_id s.message_id then
      let store1 := store.map (fun r =>
        if r.guild_id == guildId && r.id == suggestionId then
          { r with status := status, action_updated_at := some now, action_note := note }
        else r)
      match config.find? (fun c => c.channel_id == s.channel_id) with
      | none => (.channelNotFound, store1)
      | some _ => (.updated, store1)
    else (.messageNotFound, store)

/-- Python `for channel_id in channel_ids:` over the live list while the
`else` branch executes `channel_ids.remove(channel_id)`: the loop keeps an
index that advances every iteration regardless of removals, so a removal
shifts the remaining elements one position left and the element right after
a removed one is never visited.  Returns the final list together with the
picker options that were added (one per reachable visited channel). -/
def pyForRemove (reachable : Nat → Bool) (lst opts : List Nat) (i : Nat) :
    List Nat × List Nat :=
  if h : i < lst.length then
    let c := lst.get ⟨i, h⟩
    if reachable c then pyForRemove reachable lst (opts ++ [c]) (i + 1)
    else pyForRemove reachable (lst.erase c) opts (i + 1)
  else (lst, opts)
termination_by lst.length - i
decreasing_by
  all_goals simp_wf
  · omega
  · have hm : lst.get ⟨i, h⟩ ∈ lst := lst.get_mem _ _
    have := List.length_erase_of_mem hm
    omega

/-- `ChannelSelection.setup`: reads configured channel ids, then runs the
filter loop above starting from the full list with no options and index 0. -/
def channelSelectionSetup (channelIds : List Nat) (reachable : Nat → Bool) :
    List Nat × List Nat :=
  pyForRemove reachable channelIds [] 0

/-- `SELECT channel_id FROM config WHERE guild_id = ?` (order of insertion). -/
def guildConfigChannelIds (config : List ConfigRow) (guildId : Nat) : List Nat :=
  (config.filter (fun r => r.guild_id == guildId)).map (fun r => r.channel_id)

/-- The single terminal event that can resolve a shown channel picker. -/
inductive SelectionEvent where
  | choice (channelId : Nat)
  | cancel
  | timeout
deriving DecidableEq, Repr

/-- Outcome of `Suggestions.prompt_channel_select`. -/
inductive SelectionOutcome where
  | nothingConfigured
  | selected (channelId : Nat)
  | canceled
  | timedOut
  | channelNotFound
deriving DecidableEq, Repr

/-- Outcome of a channel-selection request plus whether the picker view was
actually rendered to the user. -/
structure SelectionRun where
  outcome : SelectionOutcome
  pickerRendered : Bool
deriving DecidableEq, Repr

/-- `Suggestions.prompt_channel_select`: builds the candidate list via
`ChannelSelection.setup`, short-circuits on zero or one candidates, and
otherwise renders the picker and waits for exactly one terminal event. -/
def promptChannelSelect (config : List ConfigRow) (guildId : Nat)
    (reachable : Nat → Bool) (event : SelectionEvent) : SelectionRun :=
  let channelIds := (channelSelectionSetup (guildConfigChannelIds config guildId) reachable).1
  match channelIds with
  | [] => { outcome := .nothingConfigured, pickerRendered := false }
  | [c] =>
    if reachable c then { outcome := .selected c, pickerRendered := false }
    else { outcome := .channelNotFound, pickerRendered := false }
  | _ :: _ :: _ =>
    match event with
    | .timeout => { outcome := .timedOut, pickerRendered := true }
    | .cancel => { outcome := .canceled, pickerRendered := true }
    | .choice c =>
      if reachable c then { outcome := .selected c, pickerRendered := true }
      else { outcome := .channelNotFound, pickerRendered := true }

/-- The five recognized settings (`SETTINGS` keys), in rendering order. -/
inductive SettingField where
  | allow_anonymous
  | action_notification_enabled
  | allow_attachments
  | allow_edits
  | enabled
deriving DecidableEq, Repr

/-- Write one setting column of a config row
(`UPDATE config SET {setting} = ?`). -/
def ConfigRow.setField (r : ConfigRow) : SettingField → Nat → ConfigRow
  | .allow_anonymous, v => { r with allow_anonymous := v }
  | .action_notification_enabled, v => { r with action_notification_enabled := v }
  | .allow_attachments, v => { r with allow_attachments := v }
  | .allow_edits, v => { r with allow_edits := v }
  | .enabled, v => { r with enabled := v }

/-- User-facing outcome of `SuggestionSettingsModal.on_submit`: the modal
always defers the interaction and acknowledges via `parent.update`. -/
inductive SetFieldOutcome where
  | ack
deriving DecidableEq, Repr

/-- `SuggestionSettingsModal.on_submit`: a bare
`UPDATE config SET {setting} = ? WHERE channel_id = ?` followed by the
acknowledgement — no existence check on the config row. -/
def settingsModalOnSubmit (config : List ConfigRow) (channelId : Nat)
    (field : SettingField) (value : Nat) : SetFieldOutcome × List ConfigRow :=
  (.ack, config.map (fun r => if r.channel_id == channelId then r.setField field value else r))

/-- `SuggestionSettings.setup`: returns `false` (panel not opened) when no
config row exists for the channel. -/
def suggestionSettingsSetup (config : List ConfigRow) (channelId : Nat) : Bool :=
  (config.find? (fun r => r.channel_id == channelId)).isSome

/-- The spec's error for a settings write on an unconfigured channel. -/
inductive SetFieldError where
  | notConfigured
deriving DecidableEq, Repr

/-- Follows the spec's words (§4.1) for comparison with
`settingsModalOnSubmit`: `setField(channelId, field, value)` fails with
`NotConfigured` if no config row exists for the channel, otherwise performs
the single-field write. -/
def setFieldSpec (config : List ConfigRow) (channelId : Nat)
    (field : SettingField) (value : Nat) : Except SetFieldError (List ConfigRow) :=
  if (config.find? (fun r => r.channel_id == channelId)).isSome then
    .ok (config.map (fun r => if r.channel_id == channelId then r.setField field value else r))
  else .error .notConfigured

/-- User-facing outcome of `Suggestions.add` (blacklist add). -/
inductive BlacklistAddResult where
  | reasonUpdated
  | alreadyBlacklisted
  | inserted
deriving DecidableEq, Repr

/-- `Suggestions.add`: the existence check and the reason `UPDATE` are keyed
by the picker-selected channel (`channel.id`), while — as in the source —
the `INSERT` stores `interaction.channel.id`, the channel the command was
invoked from. -/
def blacklistAdd (bl : List BlacklistRow) (guildId invokedChannelId selectedChannelId userId : Nat)
    (reason : Option String) : BlacklistAddResult × List BlacklistRow :=
  match bl.find? (fun r => r.channel_id == selectedChannelId && r.user_id == userId) with
  | some _ =>
    match reason with
    | some rs =>
      (.reasonUpdated,
        bl.map (fun r =>
          if r.user_id == userId && r.channel_id == selectedChannelId then
            { r with reason := some rs }
          else r))
    | none => (.alreadyBlacklisted, bl)
  | none =>
    (.inserted, bl ++ [{ guild_id := guildId, channel_id := invokedChannelId,
                         user_id := userId, reason := reason }])

/-! ## Helper lemmas -/

theorem list_map_fix {α : Type} (l : List α) (f : α → α) (h : ∀ x ∈ l, f x = x) :
    l.map f = l := by
  induction l with
  | nil => rfl
  | cons a t ih =>
    simp only [List.map_cons]
    rw [h a (List.mem_cons_self a t), ih (fun x hx => h x (List.mem_cons_of_mem a hx))]

theorem find_after_status_update
    (store : List SuggestionRow) (g i st : Nat) (note : Option String) (now : String)
    (s : SuggestionRow)
    (hfind : store.find? (fun r => r.guild_id == g && r.id == i) = some s) :
    (store.map (fun r =>
        if r.guild_id == g && r.id == i then
          { r with status := st, action_updated_at := some now, action_note := note }
        else r)).find? (fun r => r.guild_id == g && r.id == i)
      = some { s with status := st, action_updated_at := some now, action_note := note } := by
  rw [List.find?_map]
  have hp : ((fun r : SuggestionRow => r.guild_id == g && r.id == i) ∘ (fun r =>
      if r.guild_id == g && r.id == i then
        { r with status := st, action_updated_at := some now, action_note := note }
      else r)) = (fun r : SuggestionRow => r.guild_id == g && r.id == i) := by
    funext a
    by_cases h : (a.guild_id == g && a.id == i) = true
    · simp [Function.comp, h]
    · simp [Function.comp, h]
  have hps := List.find?_some hfind
  rw [hp, hfind, Option.map_some', if_pos hps]

/-! ## Claim theorems -/

/-- C1: a stored suggestion whose status is not `Pending` cannot be moderated
again: any `update_suggestion_status` call on it returns `AlreadyResolved`
(`alreadyActedUpon`) and leaves the store — hence the stored status, action
note and action timestamp — unchanged; and after a moderation that performs
the status `UPDATE` (result `updated`, or `channelNotFound` after the write)
with a terminal status, every further moderation call on that suggestion
fails the same way, so the status transitions only `Pending → terminal`,
exactly once. -/
theorem c1_terminal_status_frozen
    (store : List SuggestionRow) (g i : Nat) (s : SuggestionRow)
    (hfind : store.find? (fun r => r.guild_id == g && r.id == i) = some s) :
    (s.status ≠ SuggestionStatusType.PENDING →
      ∀ (cfg : List ConfigRow) (st : Nat) (note : Option String)
        (fetch : Nat → Nat → Bool) (now : String),
        updateSuggestionStatus store cfg g i st note fetch now = (.alreadyActedUpon, store))
    ∧ (∀ (cfg : List ConfigRow) (st : Nat) (note : Option String)
        (fetch : Nat → Nat → Bool) (now : String),
        st ≠ SuggestionStatusType.PENDING →
        s.status = SuggestionStatusType.PENDING →
        fetch s.channel_id s.message_id = true →
        ∀ (cfg2 : List ConfigRow) (st2 : Nat) (note2 : Option String)
          (fetch2 : Nat → Nat → Bool) (now2 : String),
          updateSuggestionStatus (updateSuggestionStatus store cfg g i st note fetch now).2
              cfg2 g i st2 note2 fetch2 now2
            = (.alreadyActedUpon,
               (updateSuggestionStatus store cfg g i st note fetch now).2)) := by
  constructor
  · intro hs cfg st note fetch now
    simp [updateSuggestionStatus, hfind, hs]
  · intro cfg st note fetch now hst hs hf cfg2 st2 note2 fetch2 now2
    have h2 : (updateSuggestionStatus store cfg g i st note fetch now).2
        = store.map (fun r =>
            if r.guild_id == g && r.id == i then
              { r with status := st, action_updated_at := some now, action_note := note }
            else r) := by
      unfold updateSuggestionStatus
      rw [hfind]
      simp only [hs, hf]
      cases hcfg : cfg.find? (fun c => c.channel_id == s.channel_id) <;> simp [hcfg]
    rw [h2]
    unfold updateSuggestionStatus
    rw [find_after_status_update store g i st note now s hfind]
    simp [hst]

/-- A concrete already-accepted suggestion row. -/
def acceptedRowC1 : SuggestionRow :=
  { id := 1, guild_id := 1, channel_id := 10, author_id := 100, message_id := 901,
    content := "idea", attachment_url := none, anonymous := 0,
    status := SuggestionStatusType.ACCEPTED, edited_at := none,
    action_updated_at := some "t0", action_note := some "great" }

/-- C1 witness: moderating an already-accepted suggestion fails and leaves
the store unchanged. -/
theorem c1_terminal_status_frozen_witness :
    updateSuggestionStatus [acceptedRowC1] [] 1 1
      SuggestionStatusType.DECLINED none (fun _ _ => true) "t1"
      = (.alreadyActedUpon, [acceptedRowC1]) :=
  (c1_terminal_status_frozen [acceptedRowC1] 1 1 acceptedRowC1 (by decide)).1
    (by decide) [] SuggestionStatusType.DECLINED none (fun _ _ => true) "t1"

/-- C2: whenever `SuggestionEntryModal.on_submit` posts a suggestion, the
assigned id is the count of suggestions already stored for the guild plus
one; and in the end-to-end scenario — setup of channels 10 and 20 in guild
1, a first post in channel 10, a second post in channel 20 — the posts are
assigned ids 1 and 2, and accepting suggestion 1 leaves suggestion 2 at
`Pending`. -/
theorem c2_sequence_id_assignment :
    (∀ (store : List SuggestionRow) (data : ConfigRow) (cid g u : Nat)
        (un : String) (ia : Nat) (ct : String) (att : Option Attachment)
        (so : Bool) (mid sid : Nat) (d : Delivery),
        (onSubmit store data cid g u un ia ct att so mid).outcome = .posted sid d →
        sid = (store.filter (fun r => r.guild_id == g)).length + 1)
    ∧ (let cfg := (setupCommand ((setupCommand [] 1 10).2) 1 20).2
       let db1 : DB := { config := cfg, blacklist := [], store := [] }
       let r1 := postFlow db1 1 10 100 [] (fun _ => false) "alice" true 0
         "first idea" none true 901
       let r2 := postFlow r1.2 1 20 100 [] (fun _ => false) "alice" true 0
         "second idea" none true 902
       let r3 := updateSuggestionStatus r2.2.store r2.2.config 1 1
         SuggestionStatusType.ACCEPTED (some "great") (fun _ _ => true) "t1"
       r1.1 = .submitted (.posted 1 .editInteraction)
       ∧ r2.1 = .submitted (.posted 2 .editInteraction)
       ∧ r3.1 = .updated
       ∧ (r3.2.find? (fun r => r.guild_id == 1 && r.id == 1)).map (fun r => r.status)
           = some SuggestionStatusType.ACCEPTED
       ∧ (r3.2.find? (fun r => r.guild_id == 1 && r.id == 2)).map (fun r => r.status)
           = some SuggestionStatusType.PENDING) := by
  constructor
  · intro store data cid g u un ia ct att so mid sid d h
    unfold onSubmit at h
    by_cases hc : ia ≠ 0 ∧ data.allow_anonymous = 0
    · rw [if_pos hc] at h
      simp at h
    · rw [if_neg hc] at h
      cases so with
      | false => simp at h
      | true =>
        simp at h
        omega
  · decide

/-- C2 witness: posting into an empty store assigns id `1 = 0 + 1`. -/
theorem c2_sequence_id_assignment_witness :
    (1 : Nat) = (([] : List SuggestionRow).filter (fun r => r.guild_id == 1)).length + 1 :=
  c2_sequence_id_assignment.1 [] (defaultConfigRow 1 10) 10 1 100 "alice" 0
    "hello there" none true 901 1 .editInteraction (by decide)

/-- C3: when rendering the suggestion message fails (`discord.Forbidden`,
modelled by `sendOk = false`), `on_submit` reports the render failure and
inserts nothing; more generally the store changes only on a run whose send
succeeded, so it never holds a record whose rendered message was not
created. -/
theorem c3_render_failure_no_insert
    (store : List SuggestionRow) (data : ConfigRow) (cid g u : Nat) (un : String)
    (ia : Nat) (ct : String) (att : Option Attachment) (mid : Nat)
    (hanon : ia ≠ 0 → data.allow_anonymous ≠ 0) :
    ((onSubmit store data cid g u un ia ct att false mid).outcome = .renderFailed
      ∧ (onSubmit store data cid g u un ia ct att false mid).store = store)
    ∧ ∀ so : Bool, (onSubmit store data cid g u un ia ct att so mid).store ≠ store →
        so = true := by
  have hc : ¬ (ia ≠ 0 ∧ data.allow_anonymous = 0) := fun h => hanon h.1 h.2
  constructor
  · constructor <;> simp [onSubmit, hc]
  · intro so h
    cases so with
    | true => rfl
    | false =>
      exfalso
      apply h
      by_cases hc2 : ia ≠ 0 ∧ data.allow_anonymous = 0 <;> simp [onSubmit, hc2]

/-- C3 witness: a concrete failed send leaves an empty store empty and
reports the failure. -/
theorem c3_render_failure_no_insert_witness :
    (onSubmit [] (defaultConfigRow 1 10) 10 1 100 "alice" 0 "hello there" none
        false 901).outcome = .renderFailed
    ∧ (onSubmit [] (defaultConfigRow 1 10) 10 1 100 "alice" 0 "hello there" none
        false 901).store = [] :=
  (c3_render_failure_no_insert [] (defaultConfigRow 1 10) 10 1 100 "alice" 0
    "hello there" none 901 (by decide)).1

/-- C5: the admission checks of `Suggestions.suggest` fire in source order —
blacklisted, not configured, channel disabled, role required, attachments
disallowed — the first failing check determining the error; and a rejected
post leaves the whole database unchanged, so it never creates a `Pending`
record. -/
theorem c5_admission_order
    (db : DB) (g cid u : Nat) (roles : List Nat) (rex : Nat → Bool)
    (un : String) (cf : Bool) (ia : Nat) (ct : String)
    (att : Option Attachment) (so : Bool) (mid : Nat) :
    (∀ b : BlacklistRow,
        db.blacklist.find? (fun r =>
          r.guild_id == g && r.user_id == u && r.channel_id == cid) = some b →
        suggestChecks db.config db.blacklist g cid u roles rex att.isSome
          = .error (.blacklisted b.reason))
    ∧ (db.blacklist.find? (fun r =>
          r.guild_id == g && r.user_id == u && r.channel_id == cid) = none →
        db.config.find? (fun r => r.channel_id == cid && r.guild_id == g) = none →
        suggestChecks db.config db.blacklist g cid u roles rex att.isSome
          = .error .notConfigured)
    ∧ (∀ data : ConfigRow,
        db.blacklist.find? (fun r =>
          r.guild_id == g && r.user_id == u && r.channel_id == cid) = none →
        db.config.find? (fun r => r.channel_id == cid && r.guild_id == g) = some data →
        data.enabled = 0 →
        suggestChecks db.config db.blacklist g cid u roles rex att.isSome
          = .error .channelDisabled)
    ∧ (∀ (data : ConfigRow) (rid : Nat),
        db.blacklist.find? (fun r =>
          r.guild_id == g && r.user_id == u && r.channel_id == cid) = none →
        db.config.find? (fun r => r.channel_id == cid && r.guild_id == g) = some data →
        data.enabled ≠ 0 →
        data.role_id = some rid →
        rex rid = true →
        roles.contains rid = false →
        suggestChecks db.config db.blacklist g cid u roles rex att.isSome
          = .error (.roleRequired rid))
    ∧ (∀ data : ConfigRow,
        db.blacklist.find? (fun r =>
          r.guild_id == g && r.user_id == u && r.channel_id == cid) = none →
        db.config.find? (fun r => r.channel_id == cid && r.guild_id == g) = some data →
        data.enabled ≠ 0 →
        (∀ rid : Nat, data.role_id = some rid → rex rid = true → roles.contains rid = true) →
        att.isSome = true →
        data.allow_attachments = 0 →
        suggestChecks db.config db.blacklist g cid u roles rex att.isSome
          = .error .attachmentsDisallowed)
    ∧ (∀ e : SuggestError,
        suggestChecks db.config db.blacklist g cid u roles rex att.isSome = .error e →
        postFlow db g cid u roles rex un cf ia ct att so mid = (.rejected e, db)) := by
  refine ⟨?_, ?_, ?_, ?_, ?_, ?_⟩
  · intro b hb
    simp [suggestChecks, hb]
  · intro hb hc
    simp [suggestChecks, hb, hc]
  · intro data hb hc he
    simp [suggestChecks, hb, hc, he]
  · intro data rid hb hc he hr hrex hcont
    have hmem : rid ∉ roles := by simpa using hcont
    simp [suggestChecks, hb, hc, he, hr, hrex, hmem]
  · intro data hb hc he hrole hatt hall
    cases hrid : data.role_id with
    | none => simp [suggestChecks, hb, hc, he, hrid, hatt, hall]
    | some rid =>
      have hcond : ¬ (rex rid = true ∧ ¬ rid ∈ roles) := by
        rintro ⟨h1, h2⟩
        exact h2 (by simpa using hrole rid hrid h1)
      simp [suggestChecks, hb, hc, he, hrid, hatt, hall, hcond]
  · intro e h
    simp [postFlow, h]

/-- A database whose blacklist bans user 100 from channel 10 of guild 1. -/
def dbC5 : DB :=
  { config := []
    blacklist := [{ guild_id := 1, channel_id := 10, user_id := 100, reason := some "spam" }]
    store := [] }

/-- C5 witness: the blacklisted user is rejected first, with the stored
reason. -/
theorem c5_admission_order_witness :
    suggestChecks dbC5.config dbC5.blacklist 1 10 100 [] (fun _ => false)
      (Option.isSome (none : Option Attachment)) = .error (.blacklisted (some "spam")) :=
  (c5_admission_order dbC5 1 10 100 [] (fun _ => false) "alice" true 0 "x" none
    true 901).1
    { guild_id := 1, channel_id := 10, user_id := 100, reason := some "spam" } (by decide)

/-- C6: with zero candidate channels the selection dialog reports nothing
configured and renders no picker; with exactly one candidate no picker is
rendered and a reachable candidate is auto-resolved; with two or more
candidates the picker is rendered and the single terminal event (choice,
cancel, timeout) determines the outcome (`selected`, `canceled`,
`timedOut`). -/
theorem c6_selection_dialog (config : List ConfigRow) (g : Nat) (reachable : Nat → Bool) :
    ((channelSelectionSetup (guildConfigChannelIds config g) reachable).1 = [] →
      ∀ ev : SelectionEvent, promptChannelSelect config g reachable ev
        = { outcome := .nothingConfigured, pickerRendered := false })
    ∧ (∀ c : Nat, (channelSelectionSetup (guildConfigChannelIds config g) reachable).1 = [c] →
        (∀ ev : SelectionEvent, (promptChannelSelect config g reachable ev).pickerRendered = false)
        ∧ (reachable c = true →
            ∀ ev : SelectionEvent, promptChannelSelect config g reachable ev
              = { outcome := .selected c, pickerRendered := false }))
    ∧ (∀ (a b : Nat) (t : List Nat),
        (channelSelectionSetup (guildConfigChannelIds config g) reachable).1 = a :: b :: t →
        (∀ ev : SelectionEvent, (promptChannelSelect config g reachable ev).pickerRendered = true)
        ∧ (∀ c : Nat, reachable c = true →
            promptChannelSelect config g reachable (.choice c)
              = { outcome := .selected c, pickerRendered := true })
        ∧ promptChannelSelect config g reachable .cancel
            = { outcome := .canceled, pickerRendered := true }
        ∧ promptChannelSelect config g reachable .timeout
            = { outcome := .timedOut, pickerRendered := true }) := by
  refine ⟨?_, ?_, ?_⟩
  · intro h ev
    simp [promptChannelSelect, h]
  · intro c h
    constructor
    · intro ev
      cases hr : reachable c <;> simp [promptChannelSelect, h, hr]
    · intro hr ev
      simp [promptChannelSelect, h, hr]
  · intro a b t h
    refine ⟨?_, ?_, ?_, ?_⟩
    · intro ev
      cases ev with
      | choice c =>
        cases hr : reachable c <;> simp [promptChannelSelect, h, hr]
      | cancel => simp [promptChannelSelect, h]
      | timeout => simp [promptChannelSelect, h]
    · intro c hr
      simp [promptChannelSelect, h, hr]
    · simp [promptChannelSelect, h]
    · simp [promptChannelSelect, h]

/-- Two configured channels in guild 1 for the C6 witness. -/
def configC6 : List ConfigRow := [defaultConfigRow 1 10, defaultConfigRow 1 20]

/-- C6 witness: with two reachable candidates, a cancel event yields the
canceled outcome with the picker rendered. -/
theorem c6_selection_dialog_witness :
    promptChannelSelect configC6 1 (fun _ => true) .cancel
      = { outcome := .canceled, pickerRendered := true } :=
  ((c6_selection_dialog configC6 1 (fun _ => true)).2.2 10 20 []
    (by simp [channelSelectionSetup, guildConfigChannelIds, configC6, pyForRemove,
      defaultConfigRow])).2.2.1

/-- C7: moderating a non-existent `(guildId, sequenceId)` returns `NotFound`
(`invalidSuggestionId`) with the store untouched; moderating an existing
`Pending` suggestion whose rendered message cannot be fetched fails with
`messageNotFound`, again with the store untouched, so the status remains
`Pending` for a retry. -/
theorem c7_moderate_not_found_and_missing_message
    (store : List SuggestionRow) (cfg : List ConfigRow) (g i st : Nat)
    (note : Option String) (fetch : Nat → Nat → Bool) (now : String) :
    (store.find? (fun r => r.guild_id == g && r.id == i) = none →
      updateSuggestionStatus store cfg g i st note fetch now = (.invalidSuggestionId, store))
    ∧ (∀ s : SuggestionRow, store.find? (fun r => r.guild_id == g && r.id == i) = some s →
        s.status = SuggestionStatusType.PENDING →
        fetch s.channel_id s.message_id = false →
        updateSuggestionStatus store cfg g i st note fetch now = (.messageNotFound, store)) := by
  constructor
  · intro h
    simp [updateSuggestionStatus, h]
  · intro s h hs hf
    simp [updateSuggestionStatus, h, hs, hf]

/-- C7 witness: moderating id 1 in an empty store reports an invalid
suggestion id and writes nothing. -/
theorem c7_moderate_not_found_witness :
    updateSuggestionStatus [] [] 1 1 SuggestionStatusType.ACCEPTED none
      (fun _ _ => true) "t" = (.invalidSuggestionId, []) :=
  (c7_moderate_not_found_and_missing_message [] [] 1 1 SuggestionStatusType.ACCEPTED
    none (fun _ _ => true) "t").1 (by decide)

/-- C4: evaluation of `Suggestions.add` at the failing input.  Invoking the
command from channel 1 while the picker selected channel 2 (guild 5, user
7), first with no reason and then with reason `"spam"`: because the
existence check is keyed on the selected channel but the `INSERT` stores the
invoking channel, the second call misses the existing row and inserts a
duplicate — afterwards there are two rows for `(channelId 1, userId 7)` and
none for the targeted `(channelId 2, userId 7)`, instead of exactly one row
for `(2, 7)` with reason `"spam"`. -/
theorem c4_blacklist_add_wrong_channel_key :
    ((blacklistAdd (blacklistAdd [] 5 1 2 7 none).2 5 1 2 7 (some "spam")).2
        = [{ guild_id := 5, channel_id := 1, user_id := 7, reason := none },
           { guild_id := 5, channel_id := 1, user_id := 7, reason := some "spam" }])
    ∧ ((blacklistAdd (blacklistAdd [] 5 1 2 7 none).2 5 1 2 7 (some "spam")).2.filter
        (fun r => r.channel_id == 2 && r.user_id == 7) = [])
    ∧ ((blacklistAdd (blacklistAdd [] 5 1 2 7 none).2 5 1 2 7 (some "spam")).2.filter
        (fun r => r.channel_id == 1 && r.user_id == 7)).length = 2 := by
  decide

/-- C8: evaluation of `ChannelSelection.setup` at the failing input.  With
configured channels `[10, 20]` both unreachable, the
remove-while-iterating loop removes 10 and then skips 20 (the index has
already advanced past it), so the returned candidate list still contains the
unreachable channel 20 — the claim that every unreachable id is removed
fails.  (No picker option is rendered for it either.) -/
theorem c8_setup_keeps_unreachable_channel :
    channelSelectionSetup [10, 20] (fun _ => false) = ([20], []) := by
  simp [channelSelectionSetup, pyForRemove]

/-- C9 counterexample: on a database with no config row for channel 5, the
settings-modal write acknowledges success and performs no write, whereas the
spec-modelled `setFieldSpec` fails with `NotConfigured` — the operation does
not fail as the claim states. -/
theorem c9_set_field_counterexample :
    settingsModalOnSubmit [] 5 SettingField.enabled 1 = (SetFieldOutcome.ack, [])
    ∧ setFieldSpec [] 5 SettingField.enabled 1 = .error .notConfigured :=
  ⟨rfl, rfl⟩

/-- C9 (amended): a settings-toggle write for a channel with no config row
does not fail — the bare `UPDATE` matches zero rows, leaves the table
unchanged and still acknowledges; the `NotConfigured` guard lives one step
earlier, in `SuggestionSettings.setup`, which reports failure when no config
row exists for the channel. -/
theorem c9_set_field_silent_noop
    (config : List ConfigRow) (cid : Nat) (field : SettingField) (v : Nat)
    (h : config.find? (fun r => r.channel_id == cid) = none) :
    settingsModalOnSubmit config cid field v = (.ack, config)
    ∧ suggestionSettingsSetup config cid = false := by
  constructor
  · unfold settingsModalOnSubmit
    have hnone := List.find?_eq_none.mp h
    rw [list_map_fix]
    intro r hr
    rw [if_neg]
    intro hcid
    exact hnone r hr hcid
  · simp [suggestionSettingsSetup, h]

/-- C9 witness: the empty config table — the write is a no-op with an
acknowledgement and the settings panel refuses to open. -/
theorem c9_set_field_silent_noop_witness :
    settingsModalOnSubmit [] 5 SettingField.enabled 1 = (.ack, [])
    ∧ suggestionSettingsSetup [] 5 = false :=
  c9_set_field_silent_noop [] 5 SettingField.enabled 1 (by decide)

/-- C10: whenever `on_submit` inserts a record, the record carries the real
author id (`interaction.user.id`) and the raw anonymity flag; anonymity only
switches the rendered embed author to "Anonymous Suggestion" and routes the
success acknowledgement to a DM instead of the public interaction edit. -/
theorem c10_anonymous_author_recorded
    (store : List SuggestionRow) (data : ConfigRow) (cid g u : Nat) (un : String)
    (ia : Nat) (ct : String) (att : Option Attachment) (mid : Nat)
    (hanon : ia ≠ 0 → data.allow_anonymous ≠ 0) :
    ∃ row : SuggestionRow,
      (onSubmit store data cid g u un ia ct att true mid).store = store ++ [row]
      ∧ row.author_id = u
      ∧ row.anonymous = ia
      ∧ (onSubmit store data cid g u un ia ct att true mid).outcome
          = .posted ((store.filter (fun r => r.guild_id == g)).length + 1)
              (if ia ≠ 0 then .dmToAuthor else .editInteraction)
      ∧ ((onSubmit store data cid g u un ia ct att true mid).embed.map
            (fun e => e.author_name))
          = some (some (if ia ≠ 0 then "Anonymous Suggestion" else un)) := by
  have hc : ¬ (ia ≠ 0 ∧ data.allow_anonymous = 0) := fun h => hanon h.1 h.2
  by_cases hia : ia = 0
  · refine ⟨{ id := (store.filter (fun r => r.guild_id == g)).length + 1, guild_id := g,
              channel_id := cid, author_id := u, message_id := mid, content := ct,
              attachment_url := att.map (fun a => a.url), anonymous := ia,
              status := SuggestionStatusType.PENDING, edited_at := none,
              action_updated_at := none, action_note := none }, ?_, rfl, rfl, ?_, ?_⟩ <;>
      simp [onSubmit, hia]
  · have hall : data.allow_anonymous ≠ 0 := fun h2 => hc ⟨hia, h2⟩
    refine ⟨{ id := (store.filter (fun r => r.guild_id == g)).length + 1, guild_id := g,
              channel_id := cid, author_id := u, message_id := mid, content := ct,
              attachment_url := att.map (fun a => a.url), anonymous := ia,
              status := SuggestionStatusType.PENDING, edited_at := none,
              action_updated_at := none, action_note := none }, ?_, rfl, rfl, ?_, ?_⟩ <;>
      simp [onSubmit, hia, hall]

/-- C10 witness: an anonymous post (flag 1, anonymity allowed) inserts a row
with the real author id 100, renders "Anonymous Suggestion", and delivers
the acknowledgement by DM. -/
theorem c10_anonymous_author_recorded_witness :
    ∃ row : SuggestionRow,
      (onSubmit [] { defaultConfigRow 1 10 with allow_anonymous := 1 } 10 1 100
          "alice" 1 "an idea" none true 901).store = [] ++ [row]
      ∧ row.author_id = 100
      ∧ row.anonymous = 1
      ∧ (onSubmit [] { defaultConfigRow 1 10 with allow_anonymous := 1 } 10 1 100
          "alice" 1 "an idea" none true 901).outcome
          = .posted ((([] : List SuggestionRow).filter (fun r => r.guild_id == 1)).length + 1)
              (if (1 : Nat) ≠ 0 then .dmToAuthor else .editInteraction)
      ∧ ((onSubmit [] { defaultConfigRow 1 10 with allow_anonymous := 1 } 10 1 100
          "alice" 1 "an idea" none true 901).embed.map (fun e => e.author_name))
          = some (some (if (1 : Nat) ≠ 0 then "Anonymous Suggestion" else "alice")) :=
  c10_anonymous_author_recorded [] { defaultConfigRow 1 10 with allow_anonymous := 1 }
    10 1 100 "alice" 1 "an idea" none 901 (by decide)

end Oxide
